import Mathlib

/-!
Verification of the poc-textman blog access layer against its specification.

The definitions below are a shallow embedding of the repository's Django
application: the data model from `blog/models.py`, the write path from
`PostCreateSerializer` in `blog/serializers.py`, and the read/write views
from `blog/views.py`.  Framework behaviour that the Python code relies on
(auto-increment primary keys, autocommit writes, REST-framework field
semantics) is modelled explicitly where a verified claim depends on it.
-/

namespace Blog

/-- Publication status of a post (`Post.STATUS_CHOICES` in models.py). -/
inductive Status
  | draft
  | published
  deriving DecidableEq

/-- `django.contrib.auth.models.User`, restricted to the attributes the blog
app reads (`id` and `username`). -/
structure User where
  id : Nat
  username : String
  deriving DecidableEq

/-- `blog.models.Category`: surrogate id, unique name, free-text description.
The `created_at`/`updated_at` timestamps are never read by the serializers or
views and categories are only created through the (out-of-scope) admin, so
they are not carried here. -/
structure Category where
  id : Nat
  name : String
  description : String
  deriving DecidableEq

/-- `blog.models.Post`.  `categoryId` is nullable (`on_delete=SET_NULL`),
`publishedAt` is nullable and is only assigned by `Post.publish`.
Timestamps are abstract instants (naturals). -/
structure Post where
  id : Nat
  title : String
  slug : String
  content : String
  authorId : Nat
  categoryId : Option Nat
  status : Status
  publishedAt : Option Nat
  createdAt : Nat
  updatedAt : Nat
  deriving DecidableEq

/-- `blog.models.Comment`: owned by a post (`on_delete=CASCADE`). -/
structure Comment where
  id : Nat
  postId : Nat
  authorId : Nat
  content : String
  deriving DecidableEq

/-- `blog.models.Tag`: surrogate id and unique name.  The many-to-many
`posts` relation lives in the linking table (`Store.postTags`). -/
structure Tag where
  id : Nat
  name : String
  deriving DecidableEq

/-- The relational store backing the app: one list per table, plus the
many-to-many linking table `postTags` (pairs of `(postId, tagId)`) and the
auto-increment counters for the two tables the app inserts into. -/
structure Store where
  users : List User
  categories : List Category
  posts : List Post
  comments : List Comment
  tags : List Tag
  postTags : List (Nat × Nat)
  nextPostId : Nat
  nextTagId : Nat
  deriving DecidableEq

def emptyStore : Store := ⟨[], [], [], [], [], [], 0, 0⟩

/-! ### Python string primitives used by the serializer -/

/-- Characters removed by Python's `str.strip()`. -/
def pySpaceChar (c : Char) : Bool :=
  c = ' ' || c = '\t' || c = '\n' || c = '\r' || c = '\x0b' || c = '\x0c'

/-- Python `str.strip()`: drop whitespace from both ends. -/
def pyStrip (s : String) : String :=
  String.mk (((s.data.dropWhile pySpaceChar).reverse.dropWhile pySpaceChar).reverse)

/-- Characters admitted by the character class `[a-z0-9-]` in
`validate_slug`. -/
def slugCharOk (c : Char) : Bool :=
  c.isLower || c.isDigit || c = '-'

/-- Python `re.match(r'^[a-z0-9-]+$', value)` viewed as a boolean: the whole
string is a nonempty run of `[a-z0-9-]`, where Python's `$` also accepts a
single trailing newline. -/
def pyMatchSlug (s : String) : Bool :=
  let cs := s.data
  (!cs.isEmpty && cs.all slugCharOk)
    || (cs.getLast? == some '\n'
          && (!cs.dropLast.isEmpty && cs.dropLast.all slugCharOk))

/-! ### `PostCreateSerializer` validation (serializers.py)

Each `validate_<field>` method from the source is one definition; the
`run<Field>Field` wrappers compose it with the built-in checks the
REST-framework field performs first (`allow_blank=False`, `max_length`,
choice membership, primary-key existence).  `to_internal_value` runs every
field and collects the failures keyed by field name. -/

/-- `validate_title`: reject a title that is empty after trimming, and store
the trimmed value. -/
def validate_title (v : String) : Except String String :=
  if (pyStrip v).length = 0 then .error "Title cannot be empty"
  else .ok (pyStrip v)

/-- `validate_content`: same check as the title. -/
def validate_content (v : String) : Except String String :=
  if (pyStrip v).length = 0 then .error "Content cannot be empty"
  else .ok (pyStrip v)

/-- `validate_slug`: first the structural character-class check, then the
uniqueness probe `Post.objects.filter(slug=value).exists()`. -/
def validate_slug (s : Store) (v : String) : Except String String :=
  if !pyMatchSlug v then
    .error "Slug can only contain lowercase letters, numbers, and hyphens"
  else if s.posts.any (fun p => p.slug == v) then
    .error "Post with this slug already exists"
  else .ok v

/-- `validate_status`: only the two declared choices pass. -/
def validate_status (v : String) : Except String String :=
  if v ≠ "draft" ∧ v ≠ "published" then
    .error "Status must be either draft or published"
  else .ok v

/-- DRF `CharField` front end for `title` (`max_length=200` from the model,
`allow_blank=False` by default), then the custom validator. -/
def runTitleField (v : String) : Except String String :=
  if v = "" then .error "This field may not be blank."
  else if 200 < v.length then
    .error "Ensure this field has no more than 200 characters."
  else validate_title v

/-- The character class `[-a-zA-Z0-9_]` shared by Django's `validate_slug`
model validator and DRF's own `SlugField` regex. -/
def broadSlugChar (c : Char) : Bool :=
  c.isAlpha || c.isDigit || c = '-' || c = '_'

/-- Django's `validate_slug` model validator, regex `[-a-zA-Z0-9_]+` anchored
with `\Z` (no trailing-newline allowance). -/
def djangoSlugOk (v : String) : Bool :=
  !v.data.isEmpty && v.data.all broadSlugChar

/-- DRF `SlugField`'s `RegexValidator`, the same class anchored with `$`,
which also accepts one trailing newline. -/
def drfSlugOk (v : String) : Bool :=
  (!v.data.isEmpty && v.data.all broadSlugChar)
    || (v.data.getLast? == some '\n'
          && (!v.data.dropLast.isEmpty && v.data.dropLast.all broadSlugChar))

/-- `Field.run_validators` for the generated `slug` field.  Because the model
field is `SlugField(unique=True)`, `ModelSerializer` builds the serializer
field with the model's `validate_slug` regex plus a `UniqueValidator` over
`Post.objects.all()`; `CharField` appends the `max_length=50` validator and
DRF's `SlugField` its own regex.  Every validator runs — the uniqueness
probe hits the store even when a regex has already failed — and all
failures are collected. -/
def slugValidatorErrors (s : Store) (v : String) : List String :=
  (if !djangoSlugOk v then
      ["Enter a valid slug consisting of letters, numbers, underscores or hyphens."]
    else [])
    ++ (if s.posts.any (fun p => p.slug == v) then
        ["This field must be unique."]
      else [])
    ++ (if 50 < v.length then
        ["Ensure this field has no more than 50 characters."]
      else [])
    ++ (if !drfSlugOk v then
        ["Enter a valid \"slug\" consisting of letters, numbers, underscores or hyphens."]
      else [])

/-- The full field run for `slug`: the blank check, then the generated
field's validators (collected), and only when all of those pass does the
custom `validate_slug` method run. -/
def runSlugField (s : Store) (v : String) : Except (List String) String :=
  if v = "" then .error ["This field may not be blank."]
  else
    match slugValidatorErrors s v with
    | [] =>
      match validate_slug s v with
      | .error m => .error [m]
      | .ok w => .ok w
    | es => .error es

/-- DRF front end for `content` (a `TextField`, so no length bound). -/
def runContentField (v : String) : Except String String :=
  if v = "" then .error "This field may not be blank."
  else validate_content v

/-- `status` is generated as a `ChoiceField` from `STATUS_CHOICES`; a value
outside the choices is rejected before `validate_status` runs. -/
def runStatusField (v : String) : Except String String :=
  if v = "draft" ∨ v = "published" then validate_status v
  else .error "Value is not a valid choice."

/-- `category` is a `PrimaryKeyRelatedField` (`null=True`): absent or null
passes, a present key must exist in the category table. -/
def runCategoryField (s : Store) : Option Nat → Except String (Option Nat)
  | none => .ok none
  | some cid =>
    if s.categories.any (fun c => c.id == cid) then .ok (some cid)
    else .error "Invalid pk - object does not exist."

/-- `tag_names` is a `ListField` of `CharField(max_length=50)`: each element
must be nonempty (`allow_blank=False`) and within the length bound. -/
def runTagNamesField (ns : List String) : Except String (List String) :=
  if ns.any (fun n => n = "") then .error "This field may not be blank."
  else if ns.any (fun n => 50 < n.length) then
    .error "Ensure this field has no more than 50 characters."
  else .ok ns

/-- The request body of the create endpoint after JSON decoding. -/
structure CreateInput where
  title : String
  slug : String
  content : String
  status : String
  categoryId : Option Nat
  tagNames : List String
  deriving DecidableEq

/-- The `validated_data` produced by a successful `is_valid()`. -/
structure Validated where
  title : String
  slug : String
  content : String
  status : String
  categoryId : Option Nat
  tagNames : List String
  deriving DecidableEq

/-- One `(field, message)` entry of the DRF error dictionary. -/
def entry {α : Type} (field : String) : Except String α → List (String × String)
  | .error m => [(field, m)]
  | .ok _ => []

/-- The entries of a field whose failures carry several collected messages. -/
def entryList {α : Type} (field : String) :
    Except (List String) α → List (String × String)
  | .error ms => ms.map (fun m => (field, m))
  | .ok _ => []

/-- All field errors of a request, in declared field order
(`fields = ['title', 'slug', 'content', 'status', 'category', 'tag_names']`).
DRF collects every field's failure rather than stopping at the first. -/
def fieldErrors (s : Store) (inp : CreateInput) : List (String × String) :=
  entry "title" (runTitleField inp.title)
    ++ entryList "slug" (runSlugField s inp.slug)
    ++ entry "content" (runContentField inp.content)
    ++ entry "status" (runStatusField inp.status)
    ++ entry "category" (runCategoryField s inp.categoryId)
    ++ entry "tag_names" (runTagNamesField inp.tagNames)

/-- `serializer.is_valid()`: either every field validates and the cleaned
values are returned, or the collected error dictionary is raised. -/
def validatePost (s : Store) (inp : CreateInput) :
    Except (List (String × String)) Validated :=
  match runTitleField inp.title, runSlugField s inp.slug,
      runContentField inp.content, runStatusField inp.status,
      runCategoryField s inp.categoryId, runTagNamesField inp.tagNames with
  | .ok t, .ok sl, .ok c, .ok st, .ok cat, .ok tg => .ok ⟨t, sl, c, st, cat, tg⟩
  | _, _, _, _, _, _ => .error (fieldErrors s inp)

/-! ### `PostCreateSerializer.create` and `perform_create` (the write path) -/

/-- `Tag.objects.get_or_create(name=...)`: return the existing row, or insert
one with the next auto-increment id. -/
def getOrCreateTag (s : Store) (name : String) : Store × Tag :=
  match s.tags.find? (fun t => t.name == name) with
  | some t => (s, t)
  | none =>
    ({ s with
        tags := s.tags ++ [⟨s.nextTagId, name⟩],
        nextTagId := s.nextTagId + 1 },
      ⟨s.nextTagId, name⟩)

/-- `post.tags.add(tag)`: insert a linking row unless it already exists. -/
def addTagLink (s : Store) (postId tagId : Nat) : Store :=
  if (postId, tagId) ∈ s.postTags then s
  else { s with postTags := s.postTags ++ [(postId, tagId)] }

/-- The tag loop of `PostCreateSerializer.create`: for each name, skip it if
it strips to empty, otherwise find-or-create the tag and link it. -/
def addTags (pid : Nat) : Store → List String → Store
  | s, [] => s
  | s, n :: ns =>
    if pyStrip n = "" then addTags pid s ns
    else
      addTags pid
        (addTagLink (getOrCreateTag s (pyStrip n)).1 pid
          (getOrCreateTag s (pyStrip n)).2.id) ns

def toStatus (v : String) : Status :=
  if v = "published" then .published else .draft

/-- `Post.objects.create(**validated_data)` followed by the tag loop.  The
author comes from `perform_create` (`serializer.save(author=request.user)`);
`published_at` is not a serializer field, so the new row always has it NULL.
Returns the final store and the new post's id. -/
def commitPost (s : Store) (author : Nat) (v : Validated) (t : Nat) :
    Store × Nat :=
  let p : Post :=
    ⟨s.nextPostId, v.title, v.slug, v.content, author, v.categoryId,
      toStatus v.status, none, t, t⟩
  (addTags p.id { s with posts := s.posts ++ [p], nextPostId := s.nextPostId + 1 }
      v.tagNames,
    s.nextPostId)

inductive CreateResult
  | badRequest
  | validationFailed (es : List (String × String))
  | created (id : Nat)
  deriving DecidableEq

/-- `PostCreateAPIView` behaviour for an authenticated user `author`:
validate, then create; on a validation failure the response is 400 and the
store is untouched. -/
def createArticleRun (s : Store) (author : Nat) (inp : CreateInput) (t : Nat) :
    CreateResult × Store :=
  match validatePost s inp with
  | .error es => (.validationFailed es, s)
  | .ok v => (.created (commitPost s author v t).2, (commitPost s author v t).1)

/-- The same write sequence under the repository's actual transaction
discipline: neither `PostCreateSerializer.create` nor `PostCreateAPIView`
opens a transaction (Django runs in autocommit and DRF does not wrap
requests), so each insert commits on its own.  `failAt` injects a storage
fault at the link-insert (`post.tags.add`) with that index; the committed
rows written before the fault remain.  Empty-stripped names are skipped and
consume no index; the find-or-create of the faulting step has already
committed when `add` fails. -/
def addTagsNoTxnFault (pid failAt : Nat) : Store → Nat → List String → Bool × Store
  | s, _, [] => (false, s)
  | s, i, n :: ns =>
    if pyStrip n = "" then addTagsNoTxnFault pid failAt s i ns
    else
      if i = failAt then (true, (getOrCreateTag s (pyStrip n)).1)
      else
        addTagsNoTxnFault pid failAt
          (addTagLink (getOrCreateTag s (pyStrip n)).1 pid
            (getOrCreateTag s (pyStrip n)).2.id)
          (i + 1) ns

/-- `createArticleRun` with the injected link-insert fault.  `none` means the
request aborted with a server error; the returned store is what the database
holds afterwards. -/
def createNoTxnFault (s : Store) (author : Nat) (inp : CreateInput) (t : Nat)
    (failAt : Nat) : Option Nat × Store :=
  match validatePost s inp with
  | .error _ => (none, s)
  | .ok v =>
    let p : Post :=
      ⟨s.nextPostId, v.title, v.slug, v.content, author, v.categoryId,
        toStatus v.status, none, t, t⟩
    match addTagsNoTxnFault p.id failAt
        { s with posts := s.posts ++ [p], nextPostId := s.nextPostId + 1 } 0
        v.tagNames with
    | (true, s2) => (none, s2)
    | (false, s2) => (some p.id, s2)

/-! ### `Post.publish` (models.py) -/

/-- `Post.publish`: set the status to published, assign `published_at` only
when it is not already set (`if not self.published_at`), and save (which
refreshes `updated_at`, an `auto_now` field). -/
def Post.publish (p : Post) (t : Nat) : Post :=
  { p with
      status := .published,
      publishedAt := if p.publishedAt = none then some t else p.publishedAt,
      updatedAt := t }

/-! ### Operation traces for the store invariant -/

/-- The write operations the specification's invariant quantifies over:
`createArticle` (the validated create endpoint) and `publish` by post id. -/
inductive Op
  | create (author : Nat) (inp : CreateInput) (t : Nat)
  | publish (id : Nat) (t : Nat)

def applyOp (s : Store) : Op → Store
  | .create a inp t => (createArticleRun s a inp t).2
  | .publish id t =>
    { s with posts := s.posts.map (fun p => if p.id = id then p.publish t else p) }

def runOps (s : Store) : List Op → Store
  | [] => s
  | op :: ops => runOps (applyOp s op) ops

def statusIsPublished (p : Post) : Bool :=
  p.status == .published

/-- Some post with this slug is currently published in `s`. -/
def hasPublishedPost (s : Store) (slug : String) : Bool :=
  s.posts.any (fun p => p.slug == slug && statusIsPublished p)

/-- The slug has "ever been published" along the trace: it is published in
the initial store or in some state the trace passes through. -/
def everPub (s : Store) : List Op → String → Bool
  | [], slug => hasPublishedPost s slug
  | op :: ops, slug => hasPublishedPost s slug || everPub (applyOp s op) ops slug

/-! ### Read-side serialization (serializers.py, views.py)

JSON values produced by the serializers.  A row is an association list of
field name to value; a field that DRF skips is simply absent from the row. -/

inductive JVal
  | null
  | str (s : String)
  | num (n : Nat)
  | arr (xs : List JVal)
  | obj (fields : List (String × JVal))

def statusStr : Status → String
  | .draft => "draft"
  | .published => "published"

def optTime : Option Nat → JVal
  | none => .null
  | some t => .num t

/-- Model attribute names a `ModelSerializer` can resolve on `Tag`. -/
def tagModelFieldNames : List String := ["id", "name", "posts"]

/-- Model attribute names a `ModelSerializer` can resolve on `Category`. -/
def categoryModelFieldNames : List String :=
  ["id", "name", "description", "created_at", "updated_at"]

/-- `ModelSerializer` field construction: every name in `Meta.fields` that is
not declared on the serializer itself must be a model attribute, otherwise
building the field set raises `ImproperlyConfigured`. -/
def buildModelFields (declared modelFields : List String) : Except String Unit :=
  match declared.find? (fun f => !modelFields.contains f) with
  | some f => .error ("Field name " ++ f ++ " is not valid for the model")
  | none => .ok ()

/-- `TagSerializer` declares `fields = ['id', 'name', 'slug']` with no
explicit field objects, so all three are resolved against the `Tag` model. -/
def tagFieldsBuild : Except String Unit :=
  buildModelFields ["id", "name", "slug"] tagModelFieldNames

/-- `CategorySerializer` declares `fields = ['id', 'name', 'slug',
'description']`, all resolved against the `Category` model. -/
def categoryFieldsBuild : Except String Unit :=
  buildModelFields ["id", "name", "slug", "description"] categoryModelFieldNames

/-- `TagSerializer.to_representation`: the field set is built lazily on first
use, so the configuration error surfaces here. -/
def tagToRepr (t : Tag) : Except String JVal :=
  match tagFieldsBuild with
  | .error m => .error m
  | .ok _ => .ok (.obj [("id", .num t.id), ("name", .str t.name)])

/-- `CategorySerializer.to_representation`, same laziness. -/
def categoryToRepr (c : Category) : Except String JVal :=
  match categoryFieldsBuild with
  | .error m => .error m
  | .ok _ =>
    .ok (.obj [("id", .num c.id), ("name", .str c.name),
      ("description", .str c.description)])

/-- `ListSerializer.to_representation`: serialize items left to right; the
first exception propagates, and an empty input never touches the child. -/
def exceptMapList {α β : Type} (f : α → Except String β) :
    List α → Except String (List β)
  | [] => .ok []
  | a :: l =>
    match f a with
    | .error e => .error e
    | .ok b =>
      match exceptMapList f l with
      | .error e => .error e
      | .ok bs => .ok (b :: bs)

/-- Lexicographic comparison on code points, used for `ORDER BY name`. -/
def charListLe : List Char → List Char → Bool
  | [], _ => true
  | _ :: _, [] => false
  | a :: as, b :: bs =>
    if a.toNat < b.toNat then true
    else if b.toNat < a.toNat then false
    else charListLe as bs

def strLe (a b : String) : Bool := charListLe a.data b.data

/-- Ordered insert by tag name (`Tag.Meta.ordering = ['name']`). -/
def insertTagByName (t : Tag) : List Tag → List Tag
  | [] => [t]
  | u :: us => if strLe t.name u.name then t :: u :: us else u :: insertTagByName t us

def sortTagsByName (ts : List Tag) : List Tag :=
  ts.foldr insertTagByName []

/-- `post.tags.all()`: the tags linked to the post, in the model's default
name ordering. -/
def postTagsOf (s : Store) (pid : Nat) : List Tag :=
  sortTagsByName
    (s.tags.filter (fun t => s.postTags.any (fun l => l.1 == pid && l.2 == t.id)))

def tagNamesOf (s : Store) (pid : Nat) : List String :=
  (postTagsOf s pid).map Tag.name

def commentCount (s : Store) (pid : Nat) : Nat :=
  (s.comments.filter (fun c => c.postId == pid)).length

def resolveCategory (s : Store) : Option Nat → Option Category
  | none => none
  | some cid => s.categories.find? (fun c => c.id == cid)

def resolveUser (s : Store) (uid : Nat) : Option User :=
  s.users.find? (fun u => u.id == uid)

/-- Traversal of a dotted `source` such as `category.name`: an intermediate
`None` raises `AttributeError`. -/
def dottedAttr {α : Type} (base : Option α) (f : α → String) :
    Except String String :=
  match base with
  | none => .error "AttributeError"
  | some v => .ok (f v)

/-- DRF `Field.get_attribute` for a read-only `CharField`: the field is not
required, so an `AttributeError` from the traversal becomes `SkipField` and
the key is left out of the row instead of raising. -/
def roCharField (key : String) (e : Except String String) :
    List (String × JVal) :=
  match e with
  | .error _ => []
  | .ok v => [(key, .str v)]

/-- `PostListSerializer.to_representation` for one post. -/
def serializePostListItem (s : Store) (p : Post) : List (String × JVal) :=
  [("id", .num p.id), ("title", .str p.title), ("slug", .str p.slug)]
    ++ roCharField "author_username" (dottedAttr (resolveUser s p.authorId) User.username)
    ++ roCharField "category_name" (dottedAttr (resolveCategory s p.categoryId) Category.name)
    ++ [("tag_names", .arr ((tagNamesOf s p.id).map JVal.str)),
        ("comment_count", .num (commentCount s p.id)),
        ("status", .str (statusStr p.status)),
        ("created_at", .num p.createdAt),
        ("published_at", optTime p.publishedAt)]

/-- The nested `category = CategorySerializer(read_only=True)` field of the
detail serializer: an absent relation is rendered as explicit `null`; a
present one delegates to `CategorySerializer`. -/
def detailCategoryField (s : Store) (p : Post) : Except String JVal :=
  match resolveCategory s p.categoryId with
  | none => .ok .null
  | some c => categoryToRepr c

/-- `PostDetailSerializer.to_representation`. -/
def postDetailRepr (s : Store) (p : Post) : Except String JVal :=
  match detailCategoryField s p with
  | .error m => .error m
  | .ok catJ =>
    match exceptMapList tagToRepr (postTagsOf s p.id) with
    | .error m => .error m
    | .ok tagsJ =>
      .ok (.obj
        ([("id", .num p.id), ("title", .str p.title), ("slug", .str p.slug),
          ("content", .str p.content)]
          ++ roCharField "author" (dottedAttr (resolveUser s p.authorId) User.username)
          ++ [("category", catJ), ("tags", .arr tagsJ),
              ("status", .str (statusStr p.status)),
              ("created_at", .num p.createdAt),
              ("updated_at", .num p.updatedAt),
              ("published_at", optTime p.publishedAt)]))

/-- The queryset of `PostDetailAPIView`: published posts only, looked up by
slug. -/
def findPublishedBySlug (s : Store) (slug : String) : Option Post :=
  (s.posts.filter statusIsPublished).find? (fun p => p.slug == slug)

inductive DetailResult
  | notFound
  | configError (m : String)
  | ok (v : JVal)

/-- `getBySlug` (GET `/blog/api/posts/<slug>/`): 404 when no published post
has the slug, otherwise the detail serialization of the match. -/
def getBySlug (s : Store) (slug : String) : DetailResult :=
  match findPublishedBySlug s slug with
  | none => .notFound
  | some p =>
    match postDetailRepr s p with
    | .error m => .configError m
    | .ok j => .ok j

/-! ### List endpoints (views.py) -/

def publishedPosts (s : Store) : List Post :=
  s.posts.filter statusIsPublished

/-- Sort key for `order_by('-published_at')`; a NULL sorts last. -/
def pubKey (p : Post) : Nat :=
  match p.publishedAt with
  | some t => t + 1
  | none => 0

def insertPubDesc (p : Post) : List Post → List Post
  | [] => [p]
  | q :: qs => if pubKey q ≤ pubKey p then p :: q :: qs else q :: insertPubDesc p qs

def sortPostsByPubDesc (l : List Post) : List Post :=
  l.foldr insertPubDesc []

/-- `PostListAPIView` (GET `/blog/api/posts/`): published posts, newest
published first, serialized with `PostListSerializer`.  No pagination class
is configured anywhere (the test suite asserts the response is a bare JSON
list), so every matching row is returned. -/
def postListApi (s : Store) : List (List (String × JVal)) :=
  (sortPostsByPubDesc (publishedPosts s)).map (serializePostListItem s)

/-- `PostListView` (the HTML list): the same filtered ordering, cut into
fixed pages of `paginate_by = 20` rows; `page` is 1-based. -/
def htmlPostListPage (s : Store) (page : Nat) : List Post :=
  ((sortPostsByPubDesc (publishedPosts s)).drop ((page - 1) * 20)).take 20

/-- Ordered insert by category name (`order_by('name')`). -/
def insertCategoryByName (c : Category) : List Category → List Category
  | [] => [c]
  | d :: ds =>
    if strLe c.name d.name then c :: d :: ds else d :: insertCategoryByName c ds

def sortCategoriesByName (cs : List Category) : List Category :=
  cs.foldr insertCategoryByName []

/-- `category_list_api` (GET `/blog/api/categories/`): all categories by
name, serialized with `CategorySerializer(many=True)`. -/
def categoryListApi (s : Store) : Except String (List JVal) :=
  exceptMapList categoryToRepr (sortCategoriesByName s.categories)

/-! ### The create endpoint seen from the wire (for the author property)

`PostCreateSerializer` declares `fields = ['title', 'slug', 'content',
'status', 'category', 'tag_names']`; keys outside this list — in particular
any `author` key — are never read from the payload.  The author is injected
by `perform_create` from `request.user`. -/

inductive PVal
  | null
  | str (s : String)
  | num (n : Nat)
  | list (l : List String)
  deriving DecidableEq

def asStr : Option PVal → Option String
  | some (.str v) => some v
  | _ => none

/-- Decode the declared fields from their raw JSON values: `title`, `slug`
and `content` are required strings; `status` defaults to `"draft"`
(`extra_kwargs`); `category` may be absent or null; `tag_names` defaults to
the empty list. -/
def parseFields (t sl c st cat tg : Option PVal) : Option CreateInput :=
  match asStr t, asStr sl, asStr c with
  | some tv, some slv, some cv =>
    let stv : Option String :=
      match st with
      | none => some "draft"
      | some (.str v) => some v
      | some _ => none
    let catv : Option (Option Nat) :=
      match cat with
      | none => some none
      | some .null => some none
      | some (.num n) => some (some n)
      | some _ => none
    let tgv : Option (List String) :=
      match tg with
      | none => some []
      | some (.list l) => some l
      | some _ => none
    match stv, catv, tgv with
    | some a, some b, some c2 => some ⟨tv, slv, cv, a, b, c2⟩
    | _, _, _ => none
  | _, _, _ => none

/-- Field extraction reads exactly the six declared keys of the payload. -/
def parsePayload (pl : List (String × PVal)) : Option CreateInput :=
  parseFields (pl.lookup "title") (pl.lookup "slug") (pl.lookup "content")
    (pl.lookup "status") (pl.lookup "category") (pl.lookup "tag_names")

/-- POST `/blog/api/posts/create/` for the authenticated user `u`. -/
def postCreateApi (s : Store) (u : Nat) (pl : List (String × PVal)) (t : Nat) :
    CreateResult × Store :=
  match parsePayload pl with
  | none => (.badRequest, s)
  | some inp => createArticleRun s u inp t

/-! ### Owner-scoped update and delete (views.py)

`PostUpdateView.get_queryset` and `PostDeleteView.get_queryset` both return
`Post.objects.filter(author=self.request.user)`, and the generic view then
resolves the URL slug inside that queryset, yielding 404 for anyone else's
post. -/

structure UpdateInput where
  title : String
  slug : String
  content : String
  status : Status
  categoryId : Option Nat
  deriving DecidableEq

inductive MutResult
  | notFound
  | updated
  | deleted
  deriving DecidableEq

/-- `get_object` against the owner-filtered queryset. -/
def findMine (s : Store) (u : Nat) (slug : String) : Option Post :=
  (s.posts.filter (fun p => p.authorId == u)).find? (fun p => p.slug == slug)

/-- `PostUpdateView`: 404 unless the requester owns the post, otherwise write
the form fields (`['title', 'slug', 'category', 'content', 'status']`) and
refresh `updated_at`. -/
def postUpdate (s : Store) (u : Nat) (slug : String) (inp : UpdateInput)
    (t : Nat) : MutResult × Store :=
  match findMine s u slug with
  | none => (.notFound, s)
  | some p =>
    (.updated,
      { s with
          posts := s.posts.map (fun q =>
            if q.id = p.id then
              { q with
                  title := inp.title, slug := inp.slug, content := inp.content,
                  status := inp.status, categoryId := inp.categoryId,
                  updatedAt := t }
            else q) })

/-- `PostDeleteView`: 404 unless the requester owns the post, otherwise
delete it; the delete cascades to its comments and removes its linking
rows. -/
def postDelete (s : Store) (u : Nat) (slug : String) : MutResult × Store :=
  match findMine s u slug with
  | none => (.notFound, s)
  | some p =>
    (.deleted,
      { s with
          posts := s.posts.filter (fun q => !(q.id == p.id)),
          comments := s.comments.filter (fun c => !(c.postId == p.id)),
          postTags := s.postTags.filter (fun l => !(l.1 == p.id)) })

/-! ### Helper lemmas -/

@[simp]
theorem getOrCreateTag_posts (s : Store) (n : String) :
    (getOrCreateTag s n).1.posts = s.posts := by
  unfold getOrCreateTag
  cases s.tags.find? (fun t => t.name == n) <;> rfl

@[simp]
theorem addTagLink_posts (s : Store) (pid tid : Nat) :
    (addTagLink s pid tid).posts = s.posts := by
  unfold addTagLink
  split <;> rfl

@[simp]
theorem addTags_posts (pid : Nat) (ns : List String) (s : Store) :
    (addTags pid s ns).posts = s.posts := by
  induction ns generalizing s with
  | nil => rfl
  | cons n ns ih =>
    unfold addTags
    split
    · exact ih s
    · rw [ih, addTagLink_posts, getOrCreateTag_posts]

theorem commitPost_posts (s : Store) (a : Nat) (v : Validated) (t : Nat) :
    (commitPost s a v t).1.posts =
      s.posts ++ [⟨s.nextPostId, v.title, v.slug, v.content, a, v.categoryId,
        toStatus v.status, none, t, t⟩] := by
  unfold commitPost
  rw [addTags_posts]

/-! ### C6 — publish is idempotent on `published_at` -/

/-- C6: `publish` sets the status to published and assigns `published_at`
only when it is not already set; a second `publish` leaves `published_at`
exactly as the first call left it. -/
theorem publish_idempotent_published_at (p : Post) (t1 t2 : Nat) :
    (p.publish t1).status = .published
    ∧ (p.publish t1).publishedAt =
        (if p.publishedAt = none then some t1 else p.publishedAt)
    ∧ ((p.publish t1).publish t2).status = .published
    ∧ ((p.publish t1).publish t2).publishedAt = (p.publish t1).publishedAt := by
  cases h : p.publishedAt <;> simp [Post.publish, h]

/-! ### C1 — the draft round trip -/

def c1Input : CreateInput :=
  ⟨"Hello", "hello", "x", "draft", none, ["a", "b"]⟩

def c1Run : CreateResult × Store := createArticleRun emptyStore 1 c1Input 0

/-- C1 counterexample: on a fresh store the create succeeds, but the claimed
follow-up `getBySlug "hello"` does not return the article — the detail
endpoint only exposes published posts, and this article is a draft, so the
result is `NotFound`. -/
theorem c1_roundtrip_counterexample :
    c1Run.1 = .created 0 ∧ getBySlug c1Run.2 "hello" = .notFound :=
  ⟨rfl, rfl⟩

/-- C1 amended: the create succeeds and stores tag links for exactly
`{"a", "b"}`, but `getBySlug "hello"` answers `NotFound` because the detail
queryset filters to published posts and the new article is a draft. -/
theorem c1_roundtrip_amended :
    c1Run.1 = .created 0
    ∧ tagNamesOf c1Run.2 0 = ["a", "b"]
    ∧ getBySlug c1Run.2 "hello" = .notFound :=
  ⟨rfl, rfl, rfl⟩

/-! ### C2 — failure atomicity of the multi-entity write -/

def c2Input : CreateInput :=
  ⟨"Hello", "hello", "x", "published", none, ["a", "b"]⟩

def c2Run : Option Nat × Store := createNoTxnFault emptyStore 1 c2Input 0 1

/-- C2: evaluation of the write path at the failing input.  A storage fault
at the second tag-link insertion aborts the request (`none`), yet the
article row, the first tag link and both tag rows persist — the sequence is
not rolled back, because no transaction wraps it. -/
theorem create_fault_leaves_partial_state :
    c2Run.1 = none
    ∧ c2Run.2.posts.map Post.slug = ["hello"]
    ∧ c2Run.2.postTags = [(0, 0)]
    ∧ c2Run.2.tags.map Tag.name = ["a", "b"] :=
  ⟨rfl, rfl, rfl, rfl⟩

/-! ### C3 — the published-at invariant -/

/-- The direction of the invariant the code maintains: a post whose
`published_at` is set has status published (and hence has been published). -/
def InvPA (s : Store) : Prop :=
  ∀ p ∈ s.posts, p.publishedAt ≠ none → p.status = .published

theorem invPA_applyOp (s : Store) (op : Op) (h : InvPA s) : InvPA (applyOp s op) := by
  cases op with
  | create a inp t =>
    intro p hp hpa
    simp only [applyOp, createArticleRun] at hp
    cases hv : validatePost s inp with
    | error es =>
      rw [hv] at hp
      exact h p hp hpa
    | ok v =>
      rw [hv] at hp
      simp only [commitPost_posts] at hp
      rcases List.mem_append.1 hp with h1 | h2
      · exact h p h1 hpa
      · rw [List.mem_singleton] at h2
        subst h2
        simp at hpa
  | publish id t =>
    intro p hp hpa
    simp only [applyOp] at hp
    rcases List.mem_map.1 hp with ⟨q, hq, rfl⟩
    by_cases hid : q.id = id
    · simp [hid, Post.publish]
    · simp only [hid, if_false] at hpa ⊢
      exact h q hq hpa

theorem invPA_runOps (s : Store) (h : InvPA s) (ops : List Op) :
    InvPA (runOps s ops) := by
  induction ops generalizing s with
  | nil => exact h
  | cons op ops ih => exact ih (applyOp s op) (invPA_applyOp s op h)

theorem everPub_of_final (ops : List Op) (s : Store) (slug : String)
    (h : hasPublishedPost (runOps s ops) slug = true) :
    everPub s ops slug = true := by
  induction ops generalizing s with
  | nil => exact h
  | cons op ops ih =>
    unfold everPub
    rw [Bool.or_eq_true]
    exact Or.inr (ih (applyOp s op) h)

/-- C3 amended: over every trace of `createArticle` and `publish`
operations, a post whose `published_at` is present has ever been published.
(The converse direction of the claim fails; see the counterexample.) -/
theorem published_at_only_if_ever_published (ops : List Op) (p : Post)
    (hp : p ∈ (runOps emptyStore ops).posts) (hpa : p.publishedAt ≠ none) :
    everPub emptyStore ops p.slug = true := by
  have hinv : InvPA (runOps emptyStore ops) :=
    invPA_runOps emptyStore (by intro q hq _; simp [emptyStore] at hq) ops
  have hst := hinv p hp hpa
  apply everPub_of_final
  unfold hasPublishedPost
  rw [List.any_eq_true]
  exact ⟨p, hp, by simp [statusIsPublished, hst]⟩

def c3Op : Op := .create 1 ⟨"Hello", "hello", "x", "published", none, []⟩ 0

/-- C3 counterexample: `createArticle` accepts `status = "published"` but
never sets `published_at`, so the resulting store holds an ever-published
article whose `published_at` is absent — the claimed "if and only if"
fails. -/
theorem published_at_iff_counterexample :
    ∃ p, p ∈ (runOps emptyStore [c3Op]).posts
      ∧ everPub emptyStore [c3Op] p.slug = true
      ∧ p.publishedAt = none := by
  refine ⟨⟨0, "Hello", "hello", "x", 1, none, .published, none, 0, 0⟩, ?_, rfl, rfl⟩
  rw [show (runOps emptyStore [c3Op]).posts
      = [⟨0, "Hello", "hello", "x", 1, none, .published, none, 0, 0⟩] from rfl]
  exact List.mem_singleton_self _

def c3wOps : List Op :=
  [.create 1 ⟨"Hello", "hello", "x", "draft", none, []⟩ 0, .publish 0 5]

def c3wPost : Post := ⟨0, "Hello", "hello", "x", 1, none, .published, some 5, 0, 5⟩

theorem published_at_only_if_ever_published_witness :
    everPub emptyStore c3wOps "hello" = true :=
  published_at_only_if_ever_published c3wOps c3wPost
    (by
      rw [show (runOps emptyStore c3wOps).posts = [c3wPost] from rfl]
      exact List.mem_singleton_self _)
    (by simp [c3wPost])

/-! ### C4 — validation order and untouched storage -/

theorem validatePost_error (s : Store) (inp : CreateInput)
    (es : List (String × String)) (h : validatePost s inp = .error es) :
    es = fieldErrors s inp := by
  unfold validatePost at h
  split at h
  · simp at h
  · injection h with h2
    exact h2.symm

/-- C4 amended: inside the handwritten `validate_slug` the charset check
still precedes its own uniqueness probe — on a charset-invalid slug its
verdict is the charset error, for every store — but the generated slug
field's validators, the `UniqueValidator` among them, run first and probe
the stored slugs no matter what the charset check would say, reporting a
duplicate as a uniqueness failure; any validation failure yields a
`ValidationFailed` response naming each offending field and leaves the
store unchanged. -/
theorem validation_failures_reported_store_untouched (s : Store) (u : Nat)
    (inp : CreateInput) (t : Nat) (es : List (String × String)) :
    (pyMatchSlug inp.slug = false →
      ∃ m, validate_slug s inp.slug = .error m
        ∧ ∀ s2 : Store, validate_slug s2 inp.slug = validate_slug s inp.slug)
    ∧ (inp.slug ≠ "" → s.posts.any (fun p => p.slug == inp.slug) = true →
        ∃ es2, runSlugField s inp.slug = .error es2
          ∧ "This field must be unique." ∈ es2)
    ∧ (validatePost s inp = .error es →
        createArticleRun s u inp t = (.validationFailed es, s)
        ∧ (∀ m, runTitleField inp.title = .error m → ("title", m) ∈ es)
        ∧ (∀ ms, runSlugField s inp.slug = .error ms → ∀ m ∈ ms, ("slug", m) ∈ es)
        ∧ (∀ m, runContentField inp.content = .error m → ("content", m) ∈ es)) := by
  refine ⟨?_, ?_, ?_⟩
  · intro hbad
    refine ⟨"Slug can only contain lowercase letters, numbers, and hyphens", ?_, ?_⟩
    · simp [validate_slug, hbad]
    · intro s2
      simp [validate_slug, hbad]
  · intro hne hdup
    have hmem : "This field must be unique." ∈ slugValidatorErrors s inp.slug := by
      unfold slugValidatorErrors
      split_ifs <;> simp_all
    cases hval : slugValidatorErrors s inp.slug with
    | nil =>
      rw [hval] at hmem
      exact absurd hmem (List.not_mem_nil _)
    | cons e es2 =>
      refine ⟨e :: es2, ?_, ?_⟩
      · unfold runSlugField
        rw [if_neg hne, hval]
      · rw [hval] at hmem
        exact hmem
  · intro hv
    have hes := validatePost_error s inp es hv
    refine ⟨by simp [createArticleRun, hv], ?_, ?_, ?_⟩
    · intro m hm
      rw [hes]
      simp [fieldErrors, entry, entryList, hm]
    · intro ms hm m hmem
      rw [hes]
      have hin : ("slug", m) ∈ entryList "slug" (runSlugField s inp.slug) := by
        rw [hm]
        simp only [entryList, List.mem_map]
        exact ⟨m, hmem, rfl⟩
      unfold fieldErrors
      simp only [List.mem_append]
      tauto
    · intro m hm
      rw [hes]
      simp [fieldErrors, entry, entryList, hm]

def c4DupStore : Store :=
  { emptyStore with
      posts := [⟨0, "T", "Hello", "y", 1, none, .draft, none, 0, 0⟩],
      nextPostId := 1 }

def c4DupInput : CreateInput := ⟨"Hi", "Hello", "x", "draft", none, []⟩

/-- C4 counterexample: the slug "Hello" lies outside the claimed lowercase
charset, yet against a store already holding that slug (creatable through
the HTML form, whose `SlugField` admits uppercase) validation reports the
slug's uniqueness failure: the probe of existing slugs ran and decided the
verdict before the structural charset check was ever reached, and the
verdict depends on the store — the claimed structural-before-uniqueness
order does not hold. -/
theorem uniqueness_probe_precedes_charset_counterexample :
    pyMatchSlug "Hello" = false
    ∧ validatePost c4DupStore c4DupInput
        = .error [("slug", "This field must be unique.")]
    ∧ runSlugField c4DupStore "Hello" ≠ runSlugField emptyStore "Hello" := by
  refine ⟨rfl, rfl, ?_⟩
  rw [show runSlugField c4DupStore "Hello"
      = .error ["This field must be unique."] from rfl]
  rw [show runSlugField emptyStore "Hello"
      = .error ["Slug can only contain lowercase letters, numbers, and hyphens"] from rfl]
  simp only [ne_eq, Except.error.injEq]
  decide

theorem validation_failures_reported_store_untouched_witness :
    (∃ m, validate_slug c4DupStore "Hello" = .error m
      ∧ ∀ s2 : Store, validate_slug s2 "Hello" = validate_slug c4DupStore "Hello")
    ∧ (∃ es2, runSlugField c4DupStore "Hello" = .error es2
        ∧ "This field must be unique." ∈ es2)
    ∧ createArticleRun c4DupStore 7 c4DupInput 0
        = (.validationFailed [("slug", "This field must be unique.")], c4DupStore)
    ∧ ("slug", "This field must be unique.")
        ∈ [("slug", "This field must be unique.")] := by
  have h := validation_failures_reported_store_untouched c4DupStore 7 c4DupInput 0
    [("slug", "This field must be unique.")]
  have h3 := h.2.2 (by rfl)
  exact ⟨h.1 (by rfl), h.2.1 (by decide) (by rfl), h3.1,
    h3.2.2.1 ["This field must be unique."] (by rfl) _ (List.mem_singleton_self _)⟩

/-! ### C5 — missing foreign keys in the enriched result -/

/-- C5 amended: an absent category never makes serialization fail — the
nested detail field renders explicit `null`, while the list serializer's
`category_name` (a read-only `CharField` with a dotted source) is skipped,
so the key is omitted from the row rather than carrying an absent value. -/
theorem missing_category_skipped_not_error (s : Store) (p : Post)
    (h : p.categoryId = none) :
    (serializePostListItem s p).lookup "category_name" = none
    ∧ detailCategoryField s p = .ok .null := by
  constructor
  · unfold serializePostListItem
    rw [h]
    cases hu : resolveUser s p.authorId <;> rfl
  · unfold detailCategoryField
    rw [h]
    rfl

def c5Post : Post := ⟨0, "T", "hello", "x", 1, none, .published, some 1, 0, 0⟩

def c5Store : Store := { emptyStore with users := [⟨1, "alice"⟩], posts := [c5Post] }

/-- C5 counterexample: for a concrete published post whose category was
deleted (`category_id` NULL), the list row has no `category_name` key at
all — the missing key does not resolve to an explicit absent value. -/
theorem category_name_omitted_counterexample :
    (serializePostListItem c5Store c5Post).lookup "category_name" = none := rfl

theorem missing_category_skipped_not_error_witness :
    (serializePostListItem c5Store c5Post).lookup "category_name" = none
    ∧ detailCategoryField c5Store c5Post = .ok .null :=
  missing_category_skipped_not_error c5Store c5Post rfl

/-! ### C7 — page bounds -/

theorem length_insertPubDesc (p : Post) (l : List Post) :
    (insertPubDesc p l).length = l.length + 1 := by
  induction l with
  | nil => rfl
  | cons q qs ih =>
    unfold insertPubDesc
    split
    · simp
    · simp [ih]

theorem length_sortPostsByPubDesc (l : List Post) :
    (sortPostsByPubDesc l).length = l.length := by
  induction l with
  | nil => rfl
  | cons p ps ih =>
    show (insertPubDesc p (sortPostsByPubDesc ps)).length = ps.length + 1
    rw [length_insertPubDesc, ih]

theorem length_postListApi (s : Store) :
    (postListApi s).length = (publishedPosts s).length := by
  unfold postListApi
  rw [List.length_map, length_sortPostsByPubDesc]

/-- C7 amended: the HTML list is paginated at the fixed `paginate_by = 20`
(no client-supplied limit exists), while the API list endpoint applies no
pagination at all — it returns exactly one row per published post, so its
size grows with the store. -/
theorem html_list_bounded_api_list_unbounded (s : Store) (page : Nat) :
    (htmlPostListPage s page).length ≤ 20
    ∧ (postListApi s).length = (publishedPosts s).length := by
  constructor
  · unfold htmlPostListPage
    exact List.length_take_le 20 _
  · exact length_postListApi s

def bigStore : Store :=
  { emptyStore with
      posts := (List.range 21).map (fun i =>
        ⟨i, "T", "p" ++ Nat.repr i, "x", 1, none, .published, some i, 0, 0⟩) }

/-- C7 counterexample: with 21 published posts, one API list request returns
21 rows — more than the claimed configured maximum of 20, with no ceiling
applied. -/
theorem api_list_unbounded_counterexample :
    (postListApi bigStore).length = 21 ∧ 20 < (postListApi bigStore).length := by
  have h : (postListApi bigStore).length = 21 := by
    rw [length_postListApi]
    rfl
  exact ⟨h, by rw [h]; decide⟩

/-! ### C8 — the author comes from the authenticated identity -/

/-- C8: the create endpoint never reads an `author` key from the payload —
two payloads that agree outside `author` produce identical responses and
stores — and every article it creates carries the authenticated user as its
author. -/
theorem author_from_identity (s : Store) (u : Nat)
    (pl1 pl2 : List (String × PVal)) (t : Nat) :
    ((∀ k, k ≠ "author" → pl1.lookup k = pl2.lookup k) →
      postCreateApi s u pl1 t = postCreateApi s u pl2 t)
    ∧ (∀ pid s2, postCreateApi s u pl1 t = (.created pid, s2) →
        ∃ p, p ∈ s2.posts ∧ p.id = pid ∧ p.authorId = u) := by
  constructor
  · intro h
    have e : parsePayload pl1 = parsePayload pl2 := by
      unfold parsePayload
      rw [h "title" (by decide), h "slug" (by decide), h "content" (by decide),
          h "status" (by decide), h "category" (by decide),
          h "tag_names" (by decide)]
    unfold postCreateApi
    rw [e]
  · intro pid s2 hr
    cases hp : parsePayload pl1 with
    | none =>
      simp only [postCreateApi, hp] at hr
      simp at hr
    | some inp =>
      simp only [postCreateApi, hp, createArticleRun] at hr
      cases hv : validatePost s inp with
      | error es =>
        rw [hv] at hr
        simp at hr
      | ok v =>
        rw [hv] at hr
        simp only [Prod.mk.injEq, CreateResult.created.injEq] at hr
        obtain ⟨hpid, hb⟩ := hr
        refine ⟨⟨s.nextPostId, v.title, v.slug, v.content, u, v.categoryId,
          toStatus v.status, none, t, t⟩, ?_, ?_, rfl⟩
        · rw [← hb, commitPost_posts]
          exact List.mem_append_right _ (List.mem_singleton_self _)
        · exact hpid

def c8Payload1 : List (String × PVal) :=
  [("title", .str "Hello"), ("slug", .str "hello"), ("content", .str "x"),
    ("author", .str "mallory")]

def c8Payload2 : List (String × PVal) :=
  [("title", .str "Hello"), ("slug", .str "hello"), ("content", .str "x"),
    ("author", .num 99)]

theorem author_from_identity_witness :
    postCreateApi emptyStore 7 c8Payload1 0 = postCreateApi emptyStore 7 c8Payload2 0
    ∧ ∃ p, p ∈ (postCreateApi emptyStore 7 c8Payload1 0).2.posts
        ∧ p.id = 0 ∧ p.authorId = 7 := by
  have h := author_from_identity emptyStore 7 c8Payload1 c8Payload2 0
  refine ⟨h.1 ?_, h.2 0 (postCreateApi emptyStore 7 c8Payload1 0).2 ?_⟩
  · intro k hk
    have hf : (k == "author") = false := beq_eq_false_iff_ne.mpr hk
    simp [c8Payload1, c8Payload2, List.lookup, hf]
  · rfl

/-! ### C9 — the misdeclared `slug` serializer field -/

def cfgMsg : String := "Field name slug is not valid for the model"

theorem categoryToRepr_error (c : Category) : categoryToRepr c = .error cfgMsg := rfl

theorem tagToRepr_error (t : Tag) : tagToRepr t = .error cfgMsg := rfl

theorem insertCategoryByName_ne_nil (c : Category) (l : List Category) :
    insertCategoryByName c l ≠ [] := by
  cases l with
  | nil => simp [insertCategoryByName]
  | cons d ds =>
    unfold insertCategoryByName
    split <;> simp

theorem sortCats_cons_ne_nil (c : Category) (l : List Category) :
    sortCategoriesByName (c :: l) ≠ [] := by
  show insertCategoryByName c (sortCategoriesByName l) ≠ []
  exact insertCategoryByName_ne_nil c _

/-- C9: `TagSerializer` and `CategorySerializer` both declare a `slug` field
that their models do not define, so as soon as a category (respectively a
tag of the requested article) must actually be rendered, field construction
fails with a configuration error instead of producing data. -/
theorem slug_field_config_error (s : Store) (slug : String) (p : Post) :
    (s.categories ≠ [] → ∃ m, categoryListApi s = .error m)
    ∧ (findPublishedBySlug s slug = some p → postTagsOf s p.id ≠ [] →
        ∃ m, getBySlug s slug = .configError m) := by
  constructor
  · intro hne
    cases hc : s.categories with
    | nil => exact absurd hc hne
    | cons c cs =>
      refine ⟨cfgMsg, ?_⟩
      unfold categoryListApi
      rw [hc]
      cases hs : sortCategoriesByName (c :: cs) with
      | nil => exact absurd hs (sortCats_cons_ne_nil c cs)
      | cons d ds =>
        unfold exceptMapList
        rw [categoryToRepr_error d]
  · intro hfind htags
    have hrepr : postDetailRepr s p = .error cfgMsg := by
      cases hrc : resolveCategory s p.categoryId with
      | some c =>
        have hcat : detailCategoryField s p = .error cfgMsg := by
          unfold detailCategoryField
          rw [hrc]
          exact categoryToRepr_error c
        unfold postDetailRepr
        rw [hcat]
      | none =>
        have hcat : detailCategoryField s p = .ok .null := by
          unfold detailCategoryField
          rw [hrc]
        obtain ⟨tg, tgs, htg⟩ := List.exists_cons_of_ne_nil htags
        have hmap : exceptMapList tagToRepr (postTagsOf s p.id) = .error cfgMsg := by
          rw [htg]
          unfold exceptMapList
          rw [tagToRepr_error tg]
        unfold postDetailRepr
        rw [hcat, hmap]
    refine ⟨cfgMsg, ?_⟩
    simp only [getBySlug, hfind]
    rw [hrepr]

def c9Post : Post := ⟨0, "T", "hello", "x", 1, none, .published, some 1, 0, 0⟩

def c9Store : Store :=
  { emptyStore with
      users := [⟨1, "alice"⟩],
      categories := [⟨0, "Tech", "d"⟩],
      posts := [c9Post],
      tags := [⟨0, "a"⟩],
      postTags := [(0, 0)],
      nextPostId := 1,
      nextTagId := 1 }

theorem slug_field_config_error_witness :
    (∃ m, categoryListApi c9Store = .error m)
    ∧ (∃ m, getBySlug c9Store "hello" = .configError m) := by
  have h := slug_field_config_error c9Store "hello" c9Post
  exact ⟨h.1 (by decide), h.2 rfl (by decide)⟩

/-! ### C10 — owner-scoped update and delete -/

/-- C10: when every post carrying the slug belongs to someone else, both the
update and the delete request answer `NotFound` and leave the store exactly
as it was; conversely, any outcome other than `NotFound` implies the
requester owns a post with that slug. -/
theorem owner_scoped_update_delete (s : Store) (u : Nat) (slug : String)
    (inp : UpdateInput) (t : Nat) :
    ((∀ a ∈ s.posts, a.slug = slug → a.authorId ≠ u) →
      postUpdate s u slug inp t = (.notFound, s)
      ∧ postDelete s u slug = (.notFound, s))
    ∧ (∀ r s2, postUpdate s u slug inp t = (r, s2) → r ≠ .notFound →
        ∃ b ∈ s.posts, b.slug = slug ∧ b.authorId = u)
    ∧ (∀ r s2, postDelete s u slug = (r, s2) → r ≠ .notFound →
        ∃ b ∈ s.posts, b.slug = slug ∧ b.authorId = u) := by
  have hsome : ∀ b, findMine s u slug = some b →
      b ∈ s.posts ∧ b.slug = slug ∧ b.authorId = u := by
    intro b hb
    unfold findMine at hb
    have h1 := List.find?_some hb
    have h2 := List.mem_of_find?_eq_some hb
    rw [List.mem_filter] at h2
    exact ⟨h2.1, by simpa using h1, by simpa using h2.2⟩
  refine ⟨?_, ?_, ?_⟩
  · intro h
    have hn : findMine s u slug = none := by
      unfold findMine
      rw [List.find?_eq_none]
      intro x hx hslug
      rw [List.mem_filter] at hx
      exact h x hx.1 (by simpa using hslug) (by simpa using hx.2)
    constructor
    · unfold postUpdate
      rw [hn]
    · unfold postDelete
      rw [hn]
  · intro r s2 hr hne
    cases hb : findMine s u slug with
    | none =>
      simp only [postUpdate, hb] at hr
      injection hr with h1 h2
      exact absurd h1.symm hne
    | some b =>
      obtain ⟨hm, hs2, ha⟩ := hsome b hb
      exact ⟨b, hm, hs2, ha⟩
  · intro r s2 hr hne
    cases hb : findMine s u slug with
    | none =>
      simp only [postDelete, hb] at hr
      injection hr with h1 h2
      exact absurd h1.symm hne
    | some b =>
      obtain ⟨hm, hs2, ha⟩ := hsome b hb
      exact ⟨b, hm, hs2, ha⟩

def c10Store : Store :=
  { emptyStore with
      users := [⟨1, "alice"⟩, ⟨2, "bob"⟩],
      posts := [⟨0, "T", "hello", "x", 1, none, .draft, none, 0, 0⟩],
      nextPostId := 1 }

def c10Input : UpdateInput := ⟨"T2", "hello", "y", .draft, none⟩

theorem owner_scoped_update_delete_witness :
    (postUpdate c10Store 2 "hello" c10Input 9 = (.notFound, c10Store)
      ∧ postDelete c10Store 2 "hello" = (.notFound, c10Store))
    ∧ ∃ b ∈ c10Store.posts, b.slug = "hello" ∧ b.authorId = 1 := by
  have h := owner_scoped_update_delete c10Store 2 "hello" c10Input 9
  have h2 := owner_scoped_update_delete c10Store 1 "hello" c10Input 9
  exact ⟨h.1 (by decide),
    h2.2.1 .updated (postUpdate c10Store 1 "hello" c10Input 9).2 rfl (by decide)⟩

end Blog
